import Mathlib

/-!
Verification development for the expo-redis-client repository.

The repository ships several revisions of the same pub/sub client side by
side:

* `src/unnamed/part_000` ("Part0" below): a TypeScript `RedisClient` whose
  listeners are two global sets (`channelListeners`, `patternListeners`) and
  whose constructor installs a dispatcher (`setupEventListeners`) with a
  per-listener try/catch.
* `src/src/ExpoRedisClientModule.ts`, first module ("V1" below): a
  TypeScript `RedisClient` with a keyed `listeners` record; `subscribe`
  installs a keyed fan-out closure on the native emitter.
* `src/src/ExpoRedisClientModule.ts`, second module ("V2" below): a
  TypeScript `RedisClient` that registers per-callback wrapper functions on
  an `EventEmitter`.
* `src/android/.../ExpoRedisClientModule.kt`, first module ("KotlinV1"
  below): the native module holding the lettuce connection and a
  `subscribers` map from key to callback list.

Callbacks are modelled by an identity (`Nat`) plus a predicate saying on
which inputs the callback throws; delivery functions return the trace of
callback invocations so that delivery claims become statements about
traces.  Broker interactions are modelled by success oracles passed as
arguments, and each operation additionally returns the list of broker
calls it attempted.
-/

/-- Connection options, from the `RedisConfig` interface of the TypeScript
sources.  Optional fields are `Option`; `connect` destructures them with
defaults `useSSL = false`, `database = 0`. -/
structure RedisConfig where
  host : String
  port : Nat
  password : Option String
  useSSL : Option Bool
  database : Option Nat
  deriving Repr, DecidableEq

/-- Hexadecimal digit character, uppercase, as produced by JavaScript's
percent-encoding. -/
def hexDigitChar (k : Nat) : Char :=
  if k < 10 then Char.ofNat (48 + k) else Char.ofNat (55 + k)

/-- Bytes that JavaScript's encodeURIComponent leaves unescaped:
`A-Z a-z 0-9 - _ . ! ~ * ' ( )`. -/
def isUnreservedByte (n : Nat) : Bool :=
  (65 ≤ n && n ≤ 90) || (97 ≤ n && n ≤ 122) || (48 ≤ n && n ≤ 57) ||
  n == 45 || n == 95 || n == 46 || n == 33 || n == 126 || n == 42 ||
  n == 39 || n == 40 || n == 41

/-- Percent-encode one byte unless it is unreserved. -/
def encodeByte (n : Nat) : String :=
  if isUnreservedByte n then String.singleton (Char.ofNat n)
  else "%" ++ String.singleton (hexDigitChar (n / 16)) ++ String.singleton (hexDigitChar (n % 16))

/-- JavaScript's encodeURIComponent: the UTF-8 bytes of the string,
percent-encoded byte by byte except for the unreserved characters. -/
def encodeURIComponent (s : String) : String :=
  String.join ((s.toUTF8.toList.map (fun b => b.toNat)).map encodeByte)

/-- URL construction from the body of `connect` (identical in
`src/unnamed/part_000` lines 123-138 and both modules of
`src/src/ExpoRedisClientModule.ts`):

  const protocol = useSSL ? 'rediss' : 'redis';
  const auth = password ? ":" + encodeURIComponent(password) + "@" : "";
  const db = database ? "/" + database : "";
  const url = protocol + "://" + auth + host + ":" + port + db;

JavaScript truthiness: an absent or empty password yields no auth part, a
database of 0 (also when defaulted) yields no suffix. -/
def buildRedisUrl (cfg : RedisConfig) : String :=
  let useSSL := cfg.useSSL.getD false
  let database := cfg.database.getD 0
  let protocol := if useSSL then "rediss" else "redis"
  let auth :=
    match cfg.password with
    | none => ""
    | some p => if p = "" then "" else ":" ++ encodeURIComponent p ++ "@"
  let db := if database = 0 then "" else "/" ++ toString database
  protocol ++ "://" ++ auth ++ cfg.host ++ ":" ++ toString cfg.port ++ db

/-- URL rule as stated by the spec (section 6), for the refinement claim C8:
`scheme = encrypted ? "rediss" : "redis"`,
`auth = password ? ":" + urlEncode(password) + "@" : ""`,
`dbSuffix = database != 0 ? "/" + database : ""`,
assembled as `scheme://auth host:port dbSuffix`.  The conditionals are the
spec's own truthiness tests, so a password counts as given exactly when it
is present and non-empty. -/
def specAssembledUrl (cfg : RedisConfig) : String :=
  let scheme := if cfg.useSSL.getD false then "rediss" else "redis"
  let auth :=
    match cfg.password with
    | none => ""
    | some p => if p = "" then "" else ":" ++ encodeURIComponent p ++ "@"
  let dbSuffix := if cfg.database.getD 0 ≠ 0 then "/" ++ toString (cfg.database.getD 0) else ""
  scheme ++ "://" ++ auth ++ cfg.host ++ ":" ++ toString cfg.port ++ dbSuffix

namespace Part0

/-- A global channel-message listener of `src/unnamed/part_000`
(`MessageListener = (channel, message) => void`): an identity plus the
inputs on which the callback throws. -/
structure MessageListener where
  id : Nat
  throwsOn : String → String → Bool

/-- A global pattern-message listener of `src/unnamed/part_000`
(`PatternMessageListener = (pattern, channel, message) => void`). -/
structure PatternMessageListener where
  id : Nat
  throwsOn : String → String → String → Bool

/-- Embeds the channel-message handler installed by `setupEventListeners`
(`src/unnamed/part_000` lines 86-100): `channelListeners.forEach` where
each invocation `listener(event.channel, event.message)` sits in its own
try/catch, so a throwing listener is caught and logged and iteration
continues.  A trace entry records (listener id, channel, message, whether
the listener threw). -/
def dispatchChannelMessage : List MessageListener → String → String →
    List (Nat × String × String × Bool)
  | [], _, _ => []
  | l :: rest, channel, message =>
    (l.id, channel, message, l.throwsOn channel message) ::
      dispatchChannelMessage rest channel message

/-- Embeds the pattern-message handler installed by `setupEventListeners`
(`src/unnamed/part_000` lines 102-115): `patternListeners.forEach` with a
per-listener try/catch; each listener receives the structured triple
`(event.pattern, event.channel, event.message)`. -/
def dispatchPatternMessage : List PatternMessageListener → String → String → String →
    List (Nat × String × String × String × Bool)
  | [], _, _, _ => []
  | l :: rest, p, channel, message =>
    (l.id, p, channel, message, l.throwsOn p channel message) ::
      dispatchPatternMessage rest p channel message

end Part0

namespace V1

/-- A channel callback of the first `src/src/ExpoRedisClientModule.ts`
module (`MessageListener = (message) => void`). -/
structure Callback where
  id : Nat
  throwsOn : String → Bool

/-- Embeds the keyed fan-out closure that `subscribe` installs on the
native module (first module of `src/src/ExpoRedisClientModule.ts`, lines
92-96):

  (message) => \x7b
    if (this.listeners[channel]) \x7b
      this.listeners[channel].forEach(callback => callback(message));
    \x7d
  \x7d

The collection passed here is `this.listeners[channel]` at dispatch time.
There is no try/catch around `callback(message)`: a throwing callback ends
the `forEach` and the error escapes to the native call site (where the
Kotlin module catches and logs it).  Returns the invocation trace and
whether an error escaped. -/
def channelFanout : List Callback → String → List Nat × Bool
  | [], _ => ([], false)
  | cb :: rest, message =>
    if cb.throwsOn message then ([cb.id], true)
    else
      let r := channelFanout rest message
      (cb.id :: r.1, r.2)

/-- Insert a key into the native `subscribers` map if absent (the key-level
effect of the native `addListener`: `if (!subscribers.containsKey(channel))
subscribers[channel] = mutableListOf(); subscribers[channel].add(cb)`).
Only key membership matters to the claims, so callback lists are elided. -/
def insertKey (l : List String) (k : String) : List String :=
  if l.contains k then l else l ++ [k]

/-- Remove a key from the native `subscribers` map (`subscribers.remove`). -/
def removeKey (l : List String) (k : String) : List String :=
  l.filter (fun x => x != k)

/-- Delete a key from the TypeScript `listeners` record
(`delete this.listeners[channel]`). -/
def deleteKey (l : List (String × List Nat)) (k : String) : List (String × List Nat) :=
  l.filter (fun kv => kv.1 != k)

/-- TypeScript-side client state of the first
`src/src/ExpoRedisClientModule.ts` module: the `isConnected` flag and the
`listeners` record (key, insertion-ordered callback ids). -/
structure ClientState where
  isConnected : Bool
  listeners : List (String × List Nat)
  deriving Repr, DecidableEq

/-- Native-module state (first module of the Kotlin source): whether
`redisClient`/`pubSubConnection` are non-null, and the keys of the
`subscribers` map. -/
structure NativeState where
  connected : Bool
  subscribers : List String
  deriving Repr, DecidableEq

/-- Broker calls issued through the lettuce client. -/
inductive BrokerCall where
  | connect (url : String)
  | subscribe (channel : String)
  | unsubscribe (channel : String)
  | psubscribe (p : String)
  | punsubscribe (p : String)
  | publish (channel : String) (message : String)
  deriving Repr, DecidableEq

/-- Typed failures surfaced to the caller.  `notConnected` is the
TypeScript precondition error "Not connected to Redis. Call connect()
first."; the others carry the key named in the native error message. -/
inductive RedisErr where
  | notConnected
  | connectFailed
  | subscribeFailed (channel : String)
  | unsubscribeFailed (channel : String)
  | psubscribeFailed (p : String)
  | punsubscribeFailed (p : String)
  | publishFailed (channel : String)
  deriving Repr, DecidableEq

deriving instance DecidableEq for Except

/-- Result of one client operation: the value or error returned to the
caller, the TypeScript state, the native state, and the broker calls that
were attempted, in order. -/
structure OpResult where
  result : Except RedisErr String
  client : ClientState
  native : NativeState
  calls : List BrokerCall
  deriving Repr, DecidableEq

/-- Loop body of `subscribe` (first `src/src` module, lines 90-97): for
each channel, await the native subscribe (which checks the native
connection and issues the lettuce call), then register the fan-out
listener natively, which records the channel key in the `subscribers`
map.  A broker failure aborts the loop with an error naming the channel.
`res` is the accumulated `result` variable (initially the empty string). -/
def subscribeLoop (c : ClientState) (ok : String → Bool) :
    NativeState → List String → String → OpResult
  | n, [], res => ⟨.ok res, c, n, []⟩
  | n, ch :: rest, _ =>
    if n.connected then
      if ok ch then
        let n' : NativeState := { n with subscribers := insertKey n.subscribers ch }
        let r := subscribeLoop c ok n' rest ("Subscribed to channel: " ++ ch)
        { r with calls := BrokerCall.subscribe ch :: r.calls }
      else ⟨.error (.subscribeFailed ch), c, n, [BrokerCall.subscribe ch]⟩
    else ⟨.error (.subscribeFailed ch), c, n, []⟩

/-- `subscribe` (first `src/src` module, lines 82-100): throws
`notConnected` before any broker call when the flag is down, otherwise
iterates the supplied channels in order.  The `string | string[]` argument
is modelled as the normalized list. -/
def subscribe (c : ClientState) (n : NativeState) (ok : String → Bool)
    (channels : List String) : OpResult :=
  if c.isConnected then subscribeLoop c ok n channels ""
  else ⟨.error .notConnected, c, n, []⟩

/-- Loop body of `unsubscribe` (first `src/src` module, lines 115-118):
`delete this.listeners[channel]` happens before the broker call; the
native side removes the `subscribers` entry only after a successful
lettuce unsubscribe. -/
def unsubscribeLoop (ok : String → Bool) :
    ClientState → NativeState → List String → String → OpResult
  | c, n, [], res => ⟨.ok res, c, n, []⟩
  | c, n, ch :: rest, _ =>
    let c' : ClientState := { c with listeners := deleteKey c.listeners ch }
    if n.connected then
      if ok ch then
        let n' : NativeState := { n with subscribers := removeKey n.subscribers ch }
        let r := unsubscribeLoop ok c' n' rest ("Unsubscribed from channel: " ++ ch)
        { r with calls := BrokerCall.unsubscribe ch :: r.calls }
      else ⟨.error (.unsubscribeFailed ch), c', n, [BrokerCall.unsubscribe ch]⟩
    else ⟨.error (.unsubscribeFailed ch), c', n, []⟩

/-- `unsubscribe` (first `src/src` module, lines 107-121). -/
def unsubscribe (c : ClientState) (n : NativeState) (ok : String → Bool)
    (channels : List String) : OpResult :=
  if c.isConnected then unsubscribeLoop ok c n channels ""
  else ⟨.error .notConnected, c, n, []⟩

/-- Loop body of `psubscribe` (first `src/src` module, lines 136-143),
mirroring `subscribeLoop` for patterns. -/
def psubscribeLoop (c : ClientState) (ok : String → Bool) :
    NativeState → List String → String → OpResult
  | n, [], res => ⟨.ok res, c, n, []⟩
  | n, p :: rest, _ =>
    if n.connected then
      if ok p then
        let n' : NativeState := { n with subscribers := insertKey n.subscribers p }
        let r := psubscribeLoop c ok n' rest ("Subscribed to pattern: " ++ p)
        { r with calls := BrokerCall.psubscribe p :: r.calls }
      else ⟨.error (.psubscribeFailed p), c, n, [BrokerCall.psubscribe p]⟩
    else ⟨.error (.psubscribeFailed p), c, n, []⟩

/-- `psubscribe` (first `src/src` module, lines 128-146). -/
def psubscribe (c : ClientState) (n : NativeState) (ok : String → Bool)
    (patterns : List String) : OpResult :=
  if c.isConnected then psubscribeLoop c ok n patterns ""
  else ⟨.error .notConnected, c, n, []⟩

/-- Loop body of `punsubscribe` (first `src/src` module, lines 161-164),
mirroring `unsubscribeLoop` for patterns. -/
def punsubscribeLoop (ok : String → Bool) :
    ClientState → NativeState → List String → String → OpResult
  | c, n, [], res => ⟨.ok res, c, n, []⟩
  | c, n, p :: rest, _ =>
    let c' : ClientState := { c with listeners := deleteKey c.listeners p }
    if n.connected then
      if ok p then
        let n' : NativeState := { n with subscribers := removeKey n.subscribers p }
        let r := punsubscribeLoop ok c' n' rest ("Unsubscribed from pattern: " ++ p)
        { r with calls := BrokerCall.punsubscribe p :: r.calls }
      else ⟨.error (.punsubscribeFailed p), c', n, [BrokerCall.punsubscribe p]⟩
    else ⟨.error (.punsubscribeFailed p), c', n, []⟩

/-- `punsubscribe` (first `src/src` module, lines 153-167). -/
def punsubscribe (c : ClientState) (n : NativeState) (ok : String → Bool)
    (patterns : List String) : OpResult :=
  if c.isConnected then punsubscribeLoop ok c n patterns ""
  else ⟨.error .notConnected, c, n, []⟩

/-- `publish` (first `src/src` module, lines 175-181, over the Kotlin
publish at lines 218-238 of the native source): TypeScript precondition
first; the native side checks its own connection, opens a transient
command connection, publishes and closes it.  `ok` is the broker outcome,
`count` the subscriber count returned on success. -/
def publish (c : ClientState) (n : NativeState) (ok : Bool) (count : Nat)
    (channel message : String) : OpResult :=
  if c.isConnected then
    if n.connected then
      if ok then
        ⟨.ok ("Published message to " ++ channel ++ ", delivered to " ++
              toString count ++ " subscribers"),
         c, n, [BrokerCall.publish channel message]⟩
      else ⟨.error (.publishFailed channel), c, n, [BrokerCall.publish channel message]⟩
    else ⟨.error (.publishFailed channel), c, n, []⟩
  else ⟨.error .notConnected, c, n, []⟩

/-- `connect` (first `src/src` module, lines 40-53, and
`src/unnamed/part_000` lines 123-138): builds the URL, awaits the native
connect (`ok` is the handshake outcome).  The native side first runs
`safeDisconnect`, clearing its state, and on failure clears it again; only
on success does the TypeScript side set `isConnected = true`.  On failure
the error is re-thrown (part_000's `withErrorHandling` logs and re-throws)
and the TypeScript state is left untouched. -/
def connect (c : ClientState) (_n : NativeState) (cfg : RedisConfig) (ok : Bool) : OpResult :=
  let url := buildRedisUrl cfg
  if ok then
    ⟨.ok "Connected to Redis server", { c with isConnected := true },
     { connected := true, subscribers := [] }, [BrokerCall.connect url]⟩
  else
    ⟨.error .connectFailed, c, { connected := false, subscribers := [] },
     [BrokerCall.connect url]⟩

/-- Native `safeDisconnect` (Kotlin, lines 267-279): `close`/`shutdown`
may throw (`closeErr`), the exception is caught and logged, and the
`finally` block nulls the connection fields and clears `subscribers`
regardless. -/
def safeDisconnect (_n : NativeState) (_closeErr : Bool) : NativeState :=
  { connected := false, subscribers := [] }

/-- Native `disconnect` (Kotlin, lines 145-153): delegates to
`safeDisconnect`, which never throws, so the call always resolves with the
success message. -/
def nativeDisconnect (n : NativeState) (closeErr : Bool) :
    Except RedisErr String × NativeState :=
  (.ok "Disconnected from Redis server", safeDisconnect n closeErr)

/-- `disconnect` (first `src/src` module, lines 70-75): awaits the native
disconnect, then drops the flag and clears the listener record.  The error
branch mirrors `withErrorHandling` re-throwing before the state updates;
it is unreachable because the native disconnect always succeeds. -/
def disconnect (c : ClientState) (n : NativeState) (closeErr : Bool) : OpResult :=
  match nativeDisconnect n closeErr with
  | (Except.ok res, n') => ⟨.ok res, { isConnected := false, listeners := [] }, n', []⟩
  | (Except.error e, n') => ⟨.error e, c, n', []⟩

/-- `isConnectedToRedis` (first `src/src` module, lines 217-219). -/
def isConnectedToRedis (c : ClientState) : Bool := c.isConnected

/-- `getActiveSubscriptions` (first `src/src` module, lines 225-227):
`Object.keys(this.listeners)`. -/
def getActiveSubscriptions (c : ClientState) : List String :=
  c.listeners.map Prod.fst

end V1

namespace V2

/-- The expo `EventEmitter` of the second `src/src` module, modelled as an
ordered list of registrations (subscription token, event name, callback
id).  Tokens come from a counter so every `addListener` call returns a
subscription that can be removed individually. -/
structure EmitterState where
  regs : List (Nat × String × Nat)
  nextToken : Nat
  deriving Repr, DecidableEq

/-- `emitter.addListener(eventName, fn)`: appends a registration and
returns the removable subscription token. -/
def emitterAddListener (st : EmitterState) (eventName : String) (cbId : Nat) :
    EmitterState × Nat :=
  ({ regs := st.regs ++ [(st.nextToken, eventName, cbId)], nextToken := st.nextToken + 1 },
   st.nextToken)

/-- `subscription.remove()`: drops exactly the registration holding the
token. -/
def emitterRemove (st : EmitterState) (token : Nat) : EmitterState :=
  { st with regs := st.regs.filter (fun r => r.1 != token) }

/-- One native event on `eventName`: every registration for that name
fires once, in registration order.  Each registered wrapper invokes its
user callback once (the wrapper catches callback errors, lines 495-504),
so the returned list is the user-callback invocation trace. -/
def emitterEmit (st : EmitterState) (eventName : String) : List Nat :=
  (st.regs.filter (fun r => r.2.1 == eventName)).map (fun r => r.2.2)

/-- One native event delivered through the wrapper functions that
`addListener` registers (second `src/src` module, lines 495-504): the
emitter fires each registration for the event name in order, and each
fired wrapper invokes its user callback once inside its own try/catch —
`try \x7b callback(event.message) \x7d catch (error) \x7b log \x7d` — so a
throwing callback is caught and logged and the remaining wrappers still
fire.  `throwsOn` says whether a given callback throws on a given
message; a trace entry records (callback id, the message passed, whether
that callback threw). -/
def dispatchWrapped (throwsOn : Nat → String → Bool) :
    List (Nat × String × Nat) → String → String → List (Nat × String × Bool)
  | [], _, _ => []
  | r :: rest, eventName, message =>
    if r.2.1 == eventName then
      (r.2.2, message, throwsOn r.2.2 message) ::
        dispatchWrapped throwsOn rest eventName message
    else dispatchWrapped throwsOn rest eventName message

/-- Insert a callback into the `listeners[channel]` tracking set (a JS
`Set`: no duplicate entry for the same callback identity). -/
def insertCb (l : List (String × List Nat)) (ch : String) (cb : Nat) :
    List (String × List Nat) :=
  match l with
  | [] => [(ch, [cb])]
  | (k, cbs) :: rest =>
    if k == ch then (k, if cbs.contains cb then cbs else cbs ++ [cb]) :: rest
    else (k, cbs) :: insertCb rest ch cb

/-- Delete a callback from the tracking set, dropping the key when the set
becomes empty (lines 518-523). -/
def removeCb (l : List (String × List Nat)) (ch : String) (cb : Nat) :
    List (String × List Nat) :=
  match l with
  | [] => []
  | (k, cbs) :: rest =>
    if k == ch then
      let cbs' := cbs.filter (fun c => c != cb)
      if cbs'.isEmpty then rest else (k, cbs') :: rest
    else (k, cbs) :: removeCb rest ch cb

/-- Client state of the second `src/src` module: the emitter plus the
`listeners` tracking record. -/
structure ClientV2 where
  emitter : EmitterState
  tracking : List (String × List Nat)
  deriving Repr, DecidableEq

/-- The closure returned by `addListener`: the emitter subscription it
will remove (none for the no-op closure returned on an internal error)
plus the channel and callback it untracks. -/
structure RemoveFn where
  token : Option Nat
  channel : String
  cbId : Nat
  deriving Repr, DecidableEq

/-- `addListener` (second `src/src` module, lines 488-532): tracks the
callback, then registers the wrapper with the emitter at line 510 AND
again at line 513 (only the second subscription is kept for removal), and
returns the removal closure.  The surrounding try/catch is modelled by
`internalFail`: when the body throws, the error is logged and a no-op
removal closure is returned instead (line 530). -/
def addListener (c : ClientV2) (channel : String) (cbId : Nat) (internalFail : Bool) :
    ClientV2 × RemoveFn :=
  if internalFail then (c, ⟨none, channel, cbId⟩)
  else
    let tracking := insertCb c.tracking channel cbId
    let step1 := emitterAddListener c.emitter channel cbId
    let step2 := emitterAddListener step1.1 channel cbId
    ({ emitter := step2.1, tracking := tracking }, ⟨some step2.2, channel, cbId⟩)

/-- Running the removal closure (lines 516-524): remove the stored
subscription, then untrack the callback. -/
def applyRemove (c : ClientV2) (r : RemoveFn) : ClientV2 :=
  match r.token with
  | none => c
  | some tok =>
    { emitter := emitterRemove c.emitter tok,
      tracking := removeCb c.tracking r.channel r.cbId }

end V2

namespace KotlinV1

/-- Lookup in the native `subscribers` map. -/
def lookupSubscribers (subs : List (String × List Nat)) (k : String) : Option (List Nat) :=
  match subs with
  | [] => none
  | (k', cbs) :: rest => if k' == k then some cbs else lookupSubscribers rest k

/-- Embeds the `message(pattern, channel, message)` override of the pub/sub
listener in the first Kotlin module (lines 104-115): every callback
registered under the pattern key receives the single string
`channel + ":" + message` (callback errors are caught and logged per
callback).  The trace records (callback id, the one string argument). -/
def patternMessage (subs : List (String × List Nat)) (p channel message : String) :
    List (Nat × String) :=
  match lookupSubscribers subs p with
  | none => []
  | some cbs => cbs.map (fun cb => (cb, channel ++ ":" ++ message))

end KotlinV1

section Theorems

/-- Helper: a first broker failure at key `k` aborts the subscribe loop
with an error naming `k`, after attempting exactly the keys up to and
including `k` and recording exactly the keys before `k`. -/
theorem subscribeLoop_first_failure
    (c : V1.ClientState) (ok : String → Bool) (k : String) (bad : List String)
    (hk : ok k = false) :
    ∀ (good : List String) (n : V1.NativeState) (res : String),
      n.connected = true → good.all ok = true →
      V1.subscribeLoop c ok n (good ++ k :: bad) res =
        ⟨.error (.subscribeFailed k), c,
         { n with subscribers := good.foldl V1.insertKey n.subscribers },
         (good ++ [k]).map V1.BrokerCall.subscribe⟩ := by
  intro good
  induction good with
  | nil =>
    intro n res hn _
    obtain ⟨nc, ns⟩ := n
    simp only [V1.NativeState.connected] at hn
    subst hn
    simp [V1.subscribeLoop, hk]
  | cons a rest ih =>
    intro n res hn hall
    rw [List.all_cons, Bool.and_eq_true] at hall
    obtain ⟨nc, ns⟩ := n
    simp only [V1.NativeState.connected] at hn
    subst hn
    have ih' := ih ⟨true, V1.insertKey ns a⟩ ("Subscribed to channel: " ++ a) rfl hall.2
    simp [V1.subscribeLoop, hall.1, ih']

/-- Helper: the pattern analogue of `subscribeLoop_first_failure`. -/
theorem psubscribeLoop_first_failure
    (c : V1.ClientState) (ok : String → Bool) (k : String) (bad : List String)
    (hk : ok k = false) :
    ∀ (good : List String) (n : V1.NativeState) (res : String),
      n.connected = true → good.all ok = true →
      V1.psubscribeLoop c ok n (good ++ k :: bad) res =
        ⟨.error (.psubscribeFailed k), c,
         { n with subscribers := good.foldl V1.insertKey n.subscribers },
         (good ++ [k]).map V1.BrokerCall.psubscribe⟩ := by
  intro good
  induction good with
  | nil =>
    intro n res hn _
    obtain ⟨nc, ns⟩ := n
    simp only [V1.NativeState.connected] at hn
    subst hn
    simp [V1.psubscribeLoop, hk]
  | cons a rest ih =>
    intro n res hn hall
    rw [List.all_cons, Bool.and_eq_true] at hall
    obtain ⟨nc, ns⟩ := n
    simp only [V1.NativeState.connected] at hn
    subst hn
    have ih' := ih ⟨true, V1.insertKey ns a⟩ ("Subscribed to pattern: " ++ a) rfl hall.2
    simp [V1.psubscribeLoop, hall.1, ih']

/-- Helper: a first broker failure at key `k` aborts the unsubscribe loop
with an error naming `k`; every key up to and including `k` has already
been deleted from the listener record (deletion precedes the broker
call), while the native `subscribers` map only forgot the keys whose
broker call succeeded. -/
theorem unsubscribeLoop_first_failure
    (ok : String → Bool) (k : String) (bad : List String) (hk : ok k = false) :
    ∀ (good : List String) (c : V1.ClientState) (n : V1.NativeState) (res : String),
      n.connected = true → good.all ok = true →
      V1.unsubscribeLoop ok c n (good ++ k :: bad) res =
        ⟨.error (.unsubscribeFailed k),
         { c with listeners := (good ++ [k]).foldl V1.deleteKey c.listeners },
         { n with subscribers := good.foldl V1.removeKey n.subscribers },
         (good ++ [k]).map V1.BrokerCall.unsubscribe⟩ := by
  intro good
  induction good with
  | nil =>
    intro c n res hn _
    obtain ⟨nc, ns⟩ := n
    simp only [V1.NativeState.connected] at hn
    subst hn
    simp [V1.unsubscribeLoop, hk]
  | cons a rest ih =>
    intro c n res hn hall
    rw [List.all_cons, Bool.and_eq_true] at hall
    obtain ⟨nc, ns⟩ := n
    simp only [V1.NativeState.connected] at hn
    subst hn
    have ih' := ih { c with listeners := V1.deleteKey c.listeners a }
      ⟨true, V1.removeKey ns a⟩ ("Unsubscribed from channel: " ++ a) rfl hall.2
    simp [V1.unsubscribeLoop, hall.1, ih']

/-- Helper: the pattern analogue of `unsubscribeLoop_first_failure`. -/
theorem punsubscribeLoop_first_failure
    (ok : String → Bool) (k : String) (bad : List String) (hk : ok k = false) :
    ∀ (good : List String) (c : V1.ClientState) (n : V1.NativeState) (res : String),
      n.connected = true → good.all ok = true →
      V1.punsubscribeLoop ok c n (good ++ k :: bad) res =
        ⟨.error (.punsubscribeFailed k),
         { c with listeners := (good ++ [k]).foldl V1.deleteKey c.listeners },
         { n with subscribers := good.foldl V1.removeKey n.subscribers },
         (good ++ [k]).map V1.BrokerCall.punsubscribe⟩ := by
  intro good
  induction good with
  | nil =>
    intro c n res hn _
    obtain ⟨nc, ns⟩ := n
    simp only [V1.NativeState.connected] at hn
    subst hn
    simp [V1.punsubscribeLoop, hk]
  | cons a rest ih =>
    intro c n res hn hall
    rw [List.all_cons, Bool.and_eq_true] at hall
    obtain ⟨nc, ns⟩ := n
    simp only [V1.NativeState.connected] at hn
    subst hn
    have ih' := ih { c with listeners := V1.deleteKey c.listeners a }
      ⟨true, V1.removeKey ns a⟩ ("Unsubscribed from pattern: " ++ a) rfl hall.2
    simp [V1.punsubscribeLoop, hall.1, ih']

/-- C1 (amended): in the delivery paths that install per-callback error
capture, every registered callback is invoked exactly once with the same
event, in order, regardless of which callbacks throw — the part_000
dispatcher for channel events (conjunct 1) and for pattern events
(conjunct 2), and the second `src/src` module's wrappers, where the
invocation trace equals the emitter's registrations for the event with
the message attached, independent of throw behaviour (conjunct 4).  By
contrast, the keyed fan-out installed by the first `src/src` module's
`subscribe` invokes the callbacks of the collection only up to and
including the first one that throws, and the error escapes to the native
call site (conjunct 3). -/
theorem c1_isolated_dispatch_delivers_to_all
    (ls : List Part0.MessageListener) (ps : List Part0.PatternMessageListener)
    (cbs : List V1.Callback) (regs : List (Nat × String × Nat)) (tok : Nat)
    (throwsOn : Nat → String → Bool) (eventName p channel message : String) :
    Part0.dispatchChannelMessage ls channel message =
      ls.map (fun l => (l.id, channel, message, l.throwsOn channel message)) ∧
    Part0.dispatchPatternMessage ps p channel message =
      ps.map (fun l => (l.id, p, channel, message, l.throwsOn p channel message)) ∧
    V1.channelFanout cbs message =
      ((cbs.takeWhile (fun cb => !cb.throwsOn message)).map V1.Callback.id ++
        ((cbs.dropWhile (fun cb => !cb.throwsOn message)).take 1).map V1.Callback.id,
       !(cbs.dropWhile (fun cb => !cb.throwsOn message)).isEmpty) ∧
    V2.dispatchWrapped throwsOn regs eventName message =
      (V2.emitterEmit ⟨regs, tok⟩ eventName).map
        (fun cbId => (cbId, message, throwsOn cbId message)) := by
  refine ⟨?_, ?_, ?_, ?_⟩
  · induction ls with
    | nil => rfl
    | cons l rest ih => simp [Part0.dispatchChannelMessage, ih]
  · induction ps with
    | nil => rfl
    | cons l rest ih => simp [Part0.dispatchPatternMessage, ih]
  · induction cbs with
    | nil => rfl
    | cons cb rest ih =>
      cases h : cb.throwsOn message <;>
        simp [V1.channelFanout, h, List.takeWhile_cons, List.dropWhile_cons, ih]
  · induction regs with
    | nil => rfl
    | cons r rest ih =>
      cases h : r.2.1 == eventName <;>
        simp [V2.dispatchWrapped, V2.emitterEmit, h] at ih ⊢ <;> simp [ih]

/-- C1 counterexample: two callbacks registered in one keyed collection;
on one message the first callback throws.  Under the fan-out of the first
`src/src` module's `subscribe` the trace contains only callback 0: the
remaining callback 1 is never invoked, and the error escapes, refuting
the claim that every callback of the collection is invoked. -/
theorem c1_counterexample :
    (V1.channelFanout [⟨0, fun _ => true⟩, ⟨1, fun _ => false⟩] "m1").1 = [0] ∧
    (V1.channelFanout [⟨0, fun _ => true⟩, ⟨1, fun _ => false⟩] "m1").1.contains 1 = false ∧
    (V1.channelFanout [⟨0, fun _ => true⟩, ⟨1, fun _ => false⟩] "m1").2 = true := by
  refine ⟨rfl, rfl, rfl⟩

/-- C2 (code bug, evaluated at the failing input): registering one
callback once via the second `src/src` module's `addListener` on channel
"alerts" produces TWO emitter registrations (lines 510 and 513), so one
inbound message invokes the callback twice, not once.  The part_000 path
(global listener set plus `setupEventListeners`) delivers exactly once
(conjunct 3). -/
theorem c2_single_message_double_invocation :
    V2.emitterEmit (V2.addListener ⟨⟨[], 0⟩, []⟩ "alerts" 0 false).1.emitter "alerts" =
      [0, 0] ∧
    V2.emitterEmit (V2.addListener ⟨⟨[], 0⟩, []⟩ "alerts" 0 false).1.emitter "alerts" ≠
      [0] ∧
    Part0.dispatchChannelMessage [⟨0, fun _ _ => false⟩] "alerts" "hello" =
      [(0, "alerts", "hello", false)] := by
  refine ⟨by decide, by decide, rfl⟩

/-- C3: while the client flag is down, each of subscribe, unsubscribe,
psubscribe, punsubscribe and publish fails with the not-connected error,
attempts no broker call, and leaves both the TypeScript and the native
state unchanged. -/
theorem c3_not_connected_rejects_before_broker
    (c : V1.ClientState) (n : V1.NativeState) (ok : String → Bool) (okb : Bool)
    (count : Nat) (chans pats : List String) (ch msg : String)
    (hc : c.isConnected = false) :
    V1.subscribe c n ok chans = ⟨.error .notConnected, c, n, []⟩ ∧
    V1.unsubscribe c n ok chans = ⟨.error .notConnected, c, n, []⟩ ∧
    V1.psubscribe c n ok pats = ⟨.error .notConnected, c, n, []⟩ ∧
    V1.punsubscribe c n ok pats = ⟨.error .notConnected, c, n, []⟩ ∧
    V1.publish c n okb count ch msg = ⟨.error .notConnected, c, n, []⟩ := by
  refine ⟨?_, ?_, ?_, ?_, ?_⟩ <;>
    simp [V1.subscribe, V1.unsubscribe, V1.psubscribe, V1.punsubscribe, V1.publish, hc]

/-- C3 witness: a concrete disconnected client with listeners, evaluated
on concrete operations. -/
theorem c3_witness :
    (V1.ClientState.mk false [("x", [0])]).isConnected = false ∧
    V1.subscribe ⟨false, [("x", [0])]⟩ ⟨true, ["x"]⟩ (fun _ => true) ["a"] =
      ⟨.error .notConnected, ⟨false, [("x", [0])]⟩, ⟨true, ["x"]⟩, []⟩ ∧
    V1.publish ⟨false, [("x", [0])]⟩ ⟨true, ["x"]⟩ true 3 "alerts" "hello" =
      ⟨.error .notConnected, ⟨false, [("x", [0])]⟩, ⟨true, ["x"]⟩, []⟩ :=
  ⟨rfl,
   (c3_not_connected_rejects_before_broker ⟨false, [("x", [0])]⟩ ⟨true, ["x"]⟩
     (fun _ => true) true 3 ["a"] ["p"] "alerts" "hello" rfl).1,
   (c3_not_connected_rejects_before_broker ⟨false, [("x", [0])]⟩ ⟨true, ["x"]⟩
     (fun _ => true) true 3 ["a"] ["p"] "alerts" "hello" rfl).2.2.2.2⟩

/-- C4 counterexample: starting from a previously Connected client state,
a failing connect leaves `isConnectedToRedis` reporting true — the claim
that the status after every failed connect is Disconnected (false) fails
at this input, because `connect` only assigns the flag after a successful
native call and never resets it on failure. -/
theorem c4_counterexample :
    V1.isConnectedToRedis
      (V1.connect ⟨true, []⟩ ⟨true, []⟩ ⟨"localhost", 6379, none, none, none⟩
        false).client ≠ false := by
  decide

/-- C4 (amended): a failed connect leaves the TypeScript client state —
in particular the connection flag — exactly as it was before the call, so
a client that was Disconnected before the failing connect still reports
Disconnected afterwards. -/
theorem c4_failed_connect_leaves_flag_unchanged
    (c : V1.ClientState) (n : V1.NativeState) (cfg : RedisConfig) :
    (V1.connect c n cfg false).result = .error .connectFailed ∧
    (V1.connect c n cfg false).client = c ∧
    V1.isConnectedToRedis (V1.connect c n cfg false).client =
      V1.isConnectedToRedis c := by
  refine ⟨rfl, rfl, rfl⟩

/-- C5: when the broker accepts every key in `good` and rejects `k`, both
subscribe and psubscribe process the supplied sequence in order, attempt
the broker call exactly for `good ++ [k]`, abort before the keys after
`k`, surface an error naming `k`, and leave the native registry holding
exactly the previously recorded keys plus the keys of `good`. -/
theorem c5_subscribe_keeps_the_keys_that_succeeded
    (c : V1.ClientState) (n : V1.NativeState) (ok : String → Bool)
    (good bad : List String) (k : String)
    (hc : c.isConnected = true) (hn : n.connected = true)
    (hgood : good.all ok = true) (hk : ok k = false) :
    V1.subscribe c n ok (good ++ k :: bad) =
      ⟨.error (.subscribeFailed k), c,
       { n with subscribers := good.foldl V1.insertKey n.subscribers },
       (good ++ [k]).map V1.BrokerCall.subscribe⟩ ∧
    V1.psubscribe c n ok (good ++ k :: bad) =
      ⟨.error (.psubscribeFailed k), c,
       { n with subscribers := good.foldl V1.insertKey n.subscribers },
       (good ++ [k]).map V1.BrokerCall.psubscribe⟩ := by
  constructor
  · simp [V1.subscribe, hc, subscribeLoop_first_failure c ok k bad hk good n "" hn hgood]
  · simp [V1.psubscribe, hc, psubscribeLoop_first_failure c ok k bad hk good n "" hn hgood]

/-- C5 witness: the spec scenario — subscribe to ["a", "b"] where the
broker rejects "b": the registry holds "a" only, the error names "b", and
no key after "b" is attempted. -/
theorem c5_witness :
    (V1.ClientState.mk true []).isConnected = true ∧
    (V1.NativeState.mk true []).connected = true ∧
    (["a"] : List String).all (fun s => s == "a") = true ∧
    (fun s => s == "a") "b" = false ∧
    V1.subscribe ⟨true, []⟩ ⟨true, []⟩ (fun s => s == "a") (["a"] ++ "b" :: []) =
      ⟨.error (.subscribeFailed "b"), ⟨true, []⟩, ⟨true, ["a"]⟩,
       [V1.BrokerCall.subscribe "a", V1.BrokerCall.subscribe "b"]⟩ := by
  refine ⟨rfl, rfl, by decide, by decide, ?_⟩
  have h := (c5_subscribe_keeps_the_keys_that_succeeded ⟨true, []⟩ ⟨true, []⟩
    (fun s => s == "a") ["a"] [] "b" rfl rfl (by decide) (by decide)).1
  refine h.trans ?_
  decide

/-- C6 counterexample: unsubscribe(["a", "b"]) while connected, with the
broker rejecting "a": the loop aborts at "a", so the passed key "b" is
never forgotten — it still appears in `getActiveSubscriptions` — refuting
the claim that every key passed to unsubscribe is forgotten from the
local registry. -/
theorem c6_counterexample :
    V1.unsubscribe ⟨true, [("a", [0]), ("b", [1])]⟩ ⟨true, ["a", "b"]⟩
        (fun _ => false) ["a", "b"] =
      ⟨.error (.unsubscribeFailed "a"), ⟨true, [("b", [1])]⟩, ⟨true, ["a", "b"]⟩,
       [V1.BrokerCall.unsubscribe "a"]⟩ ∧
    (V1.getActiveSubscriptions
        (V1.unsubscribe ⟨true, [("a", [0]), ("b", [1])]⟩ ⟨true, ["a", "b"]⟩
          (fun _ => false) ["a", "b"]).client).contains "b" = true := by
  refine ⟨by decide, by decide⟩

/-- C6 (amended): while connected, every key the loop processes — the
keys before the first broker failure and the failing key itself — is
deleted from the listener record, the deletion of the failing key
preceding its broker call, and the broker error naming the failing key is
surfaced; keys after the failing key are not processed.  Both unsubscribe
and punsubscribe behave this way. -/
theorem c6_unsubscribe_forgets_processed_keys
    (c : V1.ClientState) (n : V1.NativeState) (ok : String → Bool)
    (good bad : List String) (k : String)
    (hc : c.isConnected = true) (hn : n.connected = true)
    (hgood : good.all ok = true) (hk : ok k = false) :
    V1.unsubscribe c n ok (good ++ k :: bad) =
      ⟨.error (.unsubscribeFailed k),
       { c with listeners := (good ++ [k]).foldl V1.deleteKey c.listeners },
       { n with subscribers := good.foldl V1.removeKey n.subscribers },
       (good ++ [k]).map V1.BrokerCall.unsubscribe⟩ ∧
    V1.punsubscribe c n ok (good ++ k :: bad) =
      ⟨.error (.punsubscribeFailed k),
       { c with listeners := (good ++ [k]).foldl V1.deleteKey c.listeners },
       { n with subscribers := good.foldl V1.removeKey n.subscribers },
       (good ++ [k]).map V1.BrokerCall.punsubscribe⟩ := by
  constructor
  · simp [V1.unsubscribe, hc, unsubscribeLoop_first_failure ok k bad hk good c n "" hn hgood]
  · simp [V1.punsubscribe, hc, punsubscribeLoop_first_failure ok k bad hk good c n "" hn hgood]

/-- C6 witness: unsubscribe(["a", "b"]) where "a" succeeds and "b"'s
broker call errors: both keys leave `getActiveSubscriptions` ("b" was
deleted before its failing call), and the error names "b". -/
theorem c6_witness :
    (V1.ClientState.mk true [("a", [0]), ("b", [1])]).isConnected = true ∧
    (V1.NativeState.mk true ["a", "b"]).connected = true ∧
    (["a"] : List String).all (fun s => s == "a") = true ∧
    (fun s => s == "a") "b" = false ∧
    V1.unsubscribe ⟨true, [("a", [0]), ("b", [1])]⟩ ⟨true, ["a", "b"]⟩
        (fun s => s == "a") (["a"] ++ "b" :: []) =
      ⟨.error (.unsubscribeFailed "b"), ⟨true, []⟩, ⟨true, ["b"]⟩,
       [V1.BrokerCall.unsubscribe "a", V1.BrokerCall.unsubscribe "b"]⟩ := by
  refine ⟨rfl, rfl, by decide, by decide, ?_⟩
  have h := (c6_unsubscribe_forgets_processed_keys ⟨true, [("a", [0]), ("b", [1])]⟩
    ⟨true, ["a", "b"]⟩ (fun s => s == "a") ["a"] [] "b" rfl rfl
    (by decide) (by decide)).1
  refine h.trans ?_
  decide

/-- C7: from any state, disconnect resolves with the success message (the
native close path catches and logs its own errors, so no close error
reaches the caller), the flag reads false afterwards, the active
subscription list is empty, and both the TypeScript listener record and
the native state are cleared. -/
theorem c7_disconnect_always_succeeds_and_clears
    (c : V1.ClientState) (n : V1.NativeState) (closeErr : Bool) :
    (V1.disconnect c n closeErr).result = .ok "Disconnected from Redis server" ∧
    V1.isConnectedToRedis (V1.disconnect c n closeErr).client = false ∧
    V1.getActiveSubscriptions (V1.disconnect c n closeErr).client = [] ∧
    (V1.disconnect c n closeErr).client.listeners = [] ∧
    (V1.disconnect c n closeErr).native = ⟨false, []⟩ := by
  refine ⟨rfl, rfl, rfl, rfl, rfl⟩

/-- C8: connect's single broker call carries exactly the URL assembled by
the spec's rule (scheme from the encryption flag, auth from a present
non-empty password, database suffix for a nonzero database). -/
theorem c8_connect_builds_the_spec_url
    (c : V1.ClientState) (n : V1.NativeState) (cfg : RedisConfig) (ok : Bool) :
    (V1.connect c n cfg ok).calls = [V1.BrokerCall.connect (specAssembledUrl cfg)] := by
  have h : buildRedisUrl cfg = specAssembledUrl cfg := by
    simp only [buildRedisUrl, specAssembledUrl, ne_eq, ite_not]
  cases ok <;> simp [V1.connect, h]

/-- C9 (code bug, evaluated at the failing input): the first Kotlin
module's pattern-message handler delivers the single concatenated string
`channel + ":" + message` to the callbacks registered for the pattern —
at the spec scenario `(pattern = "user:*", channel = "user:42", payload =
"ping")` the callback receives `"user:42:ping"`, not the structured
triple.  The encoding is lossy: two distinct events are delivered
identically (conjunct 2).  The part_000 dispatcher delivers the
structured triple for the same event (conjunct 3). -/
theorem c9_pattern_concatenation :
    KotlinV1.patternMessage [("user:*", [0])] "user:*" "user:42" "ping" =
      [(0, "user:42:ping")] ∧
    KotlinV1.patternMessage [("user:*", [0])] "user:*" "a" "b:c" =
      KotlinV1.patternMessage [("user:*", [0])] "user:*" "a:b" "c" ∧
    Part0.dispatchPatternMessage [⟨0, fun _ _ _ => false⟩] "user:*" "user:42" "ping" =
      [(0, "user:*", "user:42", "ping", false)] := by
  refine ⟨by decide, by decide, rfl⟩

/-- C10 (code bug, evaluated at the failing input): `addListener` of the
second `src/src` module never throws — on an internal error it returns
the no-op removal closure and leaves the state untouched (conjunct 1) —
but the removal closure returned on success does NOT remove exactly that
registration: after registering once and running the closure, the
callback is untracked (conjunct 3) yet one emitter registration (the
duplicate from line 510) survives, so the callback still fires on every
message (conjunct 2). -/
theorem c10_remove_leaves_residual_registration :
    V2.addListener ⟨⟨[], 0⟩, []⟩ "alerts" 0 true =
      (⟨⟨[], 0⟩, []⟩, ⟨none, "alerts", 0⟩) ∧
    V2.emitterEmit
      (V2.applyRemove (V2.addListener ⟨⟨[], 0⟩, []⟩ "alerts" 0 false).1
        (V2.addListener ⟨⟨[], 0⟩, []⟩ "alerts" 0 false).2).emitter "alerts" = [0] ∧
    (V2.applyRemove (V2.addListener ⟨⟨[], 0⟩, []⟩ "alerts" 0 false).1
        (V2.addListener ⟨⟨[], 0⟩, []⟩ "alerts" 0 false).2).tracking = [] := by
  refine ⟨by decide, by decide, by decide⟩

end Theorems
